import Mathlib

/-!
# The `my-measurement` component of unit-converter

A shallow embedding of `src/js/components/my-measurement/my-measurement.js`:
the element's private fields, the part of its shadow tree the handlers touch,
and the four handlers (`attributeChangedCallback`, `#handleInput` with
`#validateInput`, `#handleUnitChange`, `#handleClick`).  Dispatched custom
events are recorded in a log carried by the state.
-/

namespace UnitConverter

/-! ## Host values: ECMAScript numbers -/

/-- An ECMAScript Number (IEEE-754 binary64).  A finite value is
`(-1)^negative * mantissa * 2^exponent`; zero is `finite _ 0 0`. -/
inductive JSNumber where
  | nan
  | infinity (negative : Bool)
  | finite (negative : Bool) (mantissa : Nat) (exponent : Int)
  deriving DecidableEq, Repr

namespace JSNumber

/-- The numeric literal `0`. -/
def zero : JSNumber := .finite false 0 0

/-- The signed mantissa of a finite value scaled to the exponent `e`
(`e` is at most the value's own exponent). -/
def scaled (negative : Bool) (mantissa : Nat) (exponent e : Int) : Int :=
  (if negative then -(mantissa : Int) else (mantissa : Int)) * 2 ^ (exponent - e).toNat

/-- The operator `a < b` on Numbers: false as soon as one side is NaN. -/
def lt : JSNumber → JSNumber → Bool
  | .nan, _ => false
  | _, .nan => false
  | .infinity na, .infinity nb => na && !nb
  | .infinity na, .finite _ _ _ => na
  | .finite _ _ _, .infinity nb => !nb
  | .finite na ma ea, .finite nb mb eb =>
    decide (scaled na ma ea (min ea eb) < scaled nb mb eb (min ea eb))

/-- The operator `a >= b` on Numbers: ECMAScript evaluates `a < b` and answers
true exactly when that comparison is defined (no NaN) and false. -/
def ge : JSNumber → JSNumber → Bool
  | .nan, _ => false
  | _, .nan => false
  | a, b => !(lt a b)

end JSNumber

/-- The global `isNaN` applied to a Number. -/
def isNaN : JSNumber → Bool
  | .nan => true
  | _ => false

/-! ## Host function `Number(string)` (ECMA-262 StringToNumber) -/

/-- Code points of `StrWhiteSpaceChar`: WhiteSpace and LineTerminator. -/
def isStrWhiteSpaceChar (c : Char) : Bool :=
  let n := c.toNat
  n == 0x9 || n == 0xA || n == 0xB || n == 0xC || n == 0xD || n == 0x20 || n == 0xA0 ||
  n == 0x1680 || (0x2000 ≤ n && n ≤ 0x200A) || n == 0x2028 || n == 0x2029 ||
  n == 0x202F || n == 0x205F || n == 0x3000 || n == 0xFEFF

/-- The value of `c` as a digit of the given radix, if it is one. -/
def digitValue (radix : Nat) (c : Char) : Option Nat :=
  let n := c.toNat
  let v :=
    if 48 ≤ n ∧ n ≤ 57 then some (n - 48)
    else if 97 ≤ n ∧ n ≤ 102 then some (n - 87)
    else if 65 ≤ n ∧ n ≤ 70 then some (n - 55)
    else none
  match v with
  | some d => if d < radix then some d else none
  | none => none

/-- The value of a non-empty run of digits, `none` when the run is empty or
holds another character. -/
def digitsValue (radix : Nat) (cs : List Char) : Option Nat :=
  match cs with
  | [] => none
  | _ => cs.foldl (fun acc c => match acc, digitValue radix c with
      | some a, some d => some (a * radix + d)
      | _, _ => none) (some 0)

/-- The loop of `floorLog2`: halve until the value is below 2. -/
def floorLog2Loop : Nat → Nat → Nat
  | 0, _ => 0
  | fuel + 1, n => if n < 2 then 0 else floorLog2Loop fuel (n / 2) + 1

/-- The position of the highest set bit of `n` (0 for `n < 2`). -/
def floorLog2 (n : Nat) : Nat := floorLog2Loop n n

/-- Round the positive rational `n / d` (with `d > 0`) to the nearest binary64
value, ties to even; overflow gives an infinity, underflow a zero. -/
def roundBinary64 (negative : Bool) (n d : Nat) : JSNumber :=
  if n = 0 then .finite negative 0 0
  else
    let e0 : Int := (floorLog2 n : Int) - (floorLog2 d : Int)
    let e : Int := if d * 2 ^ e0.toNat ≤ n * 2 ^ (-e0).toNat then e0 else e0 - 1
    let q : Int := max (e - 52) (-1074)
    let num := n * 2 ^ (-q).toNat
    let den := d * 2 ^ q.toNat
    let m0 := num / den
    let r := num % den
    let m1 := if den < 2 * r ∨ (2 * r = den ∧ m0 % 2 = 1) then m0 + 1 else m0
    let m := if m1 = 2 ^ 53 then 2 ^ 52 else m1
    let q1 : Int := if m1 = 2 ^ 53 then q + 1 else q
    if m = 0 then .finite negative 0 0
    else if 971 < q1 then .infinity negative
    else .finite negative m q1

/-- The exponent part of a decimal literal: nothing (exponent 0), or `e`/`E`,
an optional sign and digits. -/
def exponentPart (cs : List Char) : Option Int :=
  match cs with
  | [] => some 0
  | c :: rest =>
    if c = 'e' ∨ c = 'E' then
      match rest with
      | '+' :: ds => (digitsValue 10 ds).map (fun v => (v : Int))
      | '-' :: ds => (digitsValue 10 ds).map (fun v => -(v : Int))
      | ds => (digitsValue 10 ds).map (fun v => (v : Int))
    else none

/-- A `StrUnsignedDecimalLiteral`: `Infinity`, or digits with an optional
fraction and exponent (`1`, `1.`, `1.5`, `.5`, `1e3`). -/
def strUnsignedDecimalLiteral (negative : Bool) (cs : List Char) : JSNumber :=
  if cs = "Infinity".toList then .infinity negative
  else
    let intDigits := cs.takeWhile Char.isDigit
    let rest := cs.dropWhile Char.isDigit
    let fracDigits := match rest with
      | '.' :: r => r.takeWhile Char.isDigit
      | _ => []
    let rest1 := match rest with
      | '.' :: r => r.dropWhile Char.isDigit
      | r => r
    if intDigits = [] ∧ fracDigits = [] then .nan
    else
      match digitsValue 10 ('0' :: (intDigits ++ fracDigits)), exponentPart rest1 with
      | some m, some e =>
        let e10 : Int := e - fracDigits.length
        roundBinary64 negative (m * 10 ^ e10.toNat) (10 ^ (-e10).toNat)
      | _, _ => .nan

/-- A `StrNumericLiteral`: a signed decimal literal or an unsigned binary,
octal or hexadecimal integer literal. -/
def strNumericLiteral (cs : List Char) : JSNumber :=
  match cs with
  | '+' :: rest => strUnsignedDecimalLiteral false rest
  | '-' :: rest => strUnsignedDecimalLiteral true rest
  | '0' :: p :: rest =>
    let radix : Option Nat :=
      if p = 'x' ∨ p = 'X' then some 16
      else if p = 'o' ∨ p = 'O' then some 8
      else if p = 'b' ∨ p = 'B' then some 2
      else none
    match radix with
    | some r =>
      match digitsValue r rest with
      | some v => roundBinary64 false v 1
      | none => .nan
    | none => strUnsignedDecimalLiteral false cs
  | _ => strUnsignedDecimalLiteral false cs

/-- The call `Number(s)` on a string: surrounding white space is dropped, the
empty rest is `0`, a numeric literal is its rounded value, all else is NaN. -/
def Number (s : String) : JSNumber :=
  let cs := ((s.toList.dropWhile isStrWhiteSpaceChar).reverse.dropWhile isStrWhiteSpaceChar).reverse
  match cs with
  | [] => JSNumber.zero
  | _ => strNumericLiteral cs

/-! ## Collaborators that live outside `src/` -/

/-- An exception value: `new Error()` thrown by `#validateInput`, or the
error of the measurement-type check. -/
inductive JSError where
  | Error
  | InvalidMeasurementTypeError
  deriving DecidableEq, Repr

/-- Modelled from the spec: the enumeration `MeasurementType`, imported from
`../../measurementType` (not under `src/`); the spec gives it the fixed set
length, time, weight, volume.  This is the member `LENGTH`. -/
def MeasurementType.LENGTH : String := "length"

/-- Modelled from the spec: the values of the enumeration `MeasurementType`
(the module `../../measurementType` is not under `src/`). -/
def MeasurementType.values : List String := ["length", "time", "weight", "volume"]

/-- Modelled from the spec: `helper.validateMeasurementType`, imported from
`../../helper` (not under `src/`): it accepts a recognized MeasurementType and
fails with an `InvalidMeasurementTypeError` on anything else (`none` is the
value `null` of a removed attribute). -/
def helper.validateMeasurementType (value : Option String) : Except JSError Unit :=
  match value with
  | some v => if v ∈ MeasurementType.values then .ok () else .error .InvalidMeasurementTypeError
  | none => .error .InvalidMeasurementTypeError

/-! ## The element and its shadow tree -/

/-- A `CustomEvent` as the component creates it: its type name and the
`bubbles` flag of its init dictionary. -/
structure CustomEvent where
  type : String
  bubbles : Bool
  deriving DecidableEq, Repr

/-- `DOMTokenList.add`: the token is appended unless already present. -/
def DOMTokenList.add (tokens : List String) (token : String) : List String :=
  if token ∈ tokens then tokens else tokens ++ [token]

/-- `DOMTokenList.remove`: the token is taken out. -/
def DOMTokenList.remove (tokens : List String) (token : String) : List String :=
  tokens.filter (fun t => t != token)

/-- The `<input name="quantity">` of the template: its text and class list. -/
structure HTMLInputElement where
  value : String
  classList : List String
  deriving DecidableEq, Repr

/-- The embedded `<my-unit-selector>`: only its `type` attribute is touched by
this component (`none` is an absent attribute). -/
structure MyUnitSelector where
  typeAttribute : Option String
  deriving DecidableEq, Repr

/-- A `my-measurement` element: the private fields `#type` and `#quantity`, the
nodes of its shadow tree the handlers reach, whether it is attached to a
document, and the events it has dispatched on itself, oldest first. -/
structure MyMeasurement where
  type : Option String
  quantity : JSNumber
  input : HTMLInputElement
  unitSelector : MyUnitSelector
  isConnected : Bool
  dispatched : List CustomEvent
  deriving DecidableEq, Repr

namespace MyMeasurement

/-- The `constructor`: `#type = MeasurementType.LENGTH`, `#quantity = 0`, and a
clone of the template (`<input value="0">` without a class,
`<my-unit-selector type="length">`).  A new element is not attached and has
dispatched nothing. -/
def construct : MyMeasurement :=
  { type := some MeasurementType.LENGTH
    quantity := JSNumber.zero
    input := { value := "0", classList := [] }
    unitSelector := { typeAttribute := some "length" }
    isConnected := false
    dispatched := [] }

/-- The argument of `setAttribute` converted to a string (`null` gives
`"null"`). -/
def attributeString (value : Option String) : String :=
  match value with
  | some v => v
  | none => "null"

/-- The call `this.dispatchEvent(event)`: the event is recorded as dispatched on
the element; nothing else of the element changes. -/
def dispatchEvent (self : MyMeasurement) (event : CustomEvent) : MyMeasurement :=
  { self with dispatched := self.dispatched ++ [event] }

/-- The method `attributeChangedCallback(name, oldValue, newValue)`.  The check
`helper.validateMeasurementType` is the parameter `validate`.  The result is
the completion (normal, or the thrown error) and the element afterwards. -/
def attributeChangedCallback (validate : Option String → Except JSError Unit)
    (self : MyMeasurement) (name : String) (oldValue newValue : Option String) :
    Except JSError Unit × MyMeasurement :=
  if name = "type" ∧ newValue ≠ oldValue then
    match validate newValue with
    | .error e => (.error e, self)
    | .ok () =>
      let self1 := { self with type := newValue }
      (.ok (), { self1 with
        unitSelector := { self1.unitSelector with typeAttribute := some (attributeString newValue) } })
  else (.ok (), self)

/-- The getter `quantity`. -/
def getQuantity (self : MyMeasurement) : JSNumber := self.quantity

/-- The method `#validateInput(input)`: throws `new Error()` when `Number(input)`
is NaN or below zero. -/
def validateInput (input : String) : Except JSError Unit :=
  let value := Number input
  if isNaN value || value.lt JSNumber.zero then .error .Error else .ok ()

/-- The method `#handleInput(event)`, where `event.target` is the quantity
input.  The `try` block validates the text, removes the class `invalid`,
stores the number and dispatches `quantityInput`; the `catch` block adds the
class `invalid`. -/
def handleInput (self : MyMeasurement) : Except JSError Unit × MyMeasurement :=
  match validateInput self.input.value with
  | .ok () =>
    let self1 := { self with
      input := { self.input with classList := DOMTokenList.remove self.input.classList "invalid" } }
    let self2 := { self1 with quantity := Number self1.input.value }
    (.ok (), self2.dispatchEvent { type := "quantityInput", bubbles := true })
  | .error _ =>
    (.ok (), { self with
      input := { self.input with classList := DOMTokenList.add self.input.classList "invalid" } })

/-- The method `#handleUnitChange()`. -/
def handleUnitChange (self : MyMeasurement) : Except JSError Unit × MyMeasurement :=
  (.ok (), self.dispatchEvent { type := "unitChange", bubbles := true })

/-- The method `#handleClick()`. -/
def handleClick (self : MyMeasurement) : Except JSError Unit × MyMeasurement :=
  (.ok (), self.dispatchEvent { type := "removeMeasurement", bubbles := true })

/-! ## What reaches the element from outside -/

/-- The user edits the quantity box to `text`: the host stores the text in the
input and fires `input`, which the constructor's listener hands to
`#handleInput`. -/
def inputEvent (self : MyMeasurement) (text : String) : Except JSError Unit × MyMeasurement :=
  handleInput { self with input := { self.input with value := text } }

/-- The embedded selector fires `unitChange`: the constructor's listener calls
`#handleUnitChange`. -/
def unitChangeEvent (self : MyMeasurement) : Except JSError Unit × MyMeasurement :=
  handleUnitChange self

/-- The removal button is clicked: the constructor's listener calls
`event.preventDefault()` (which concerns the click event only) and
`#handleClick`. -/
def clickEvent (self : MyMeasurement) : Except JSError Unit × MyMeasurement :=
  handleClick self

/-- The marker of an invalid entry: the class `invalid` on the input. -/
def invalidMarker (self : MyMeasurement) : Bool :=
  decide ("invalid" ∈ self.input.classList)

/-- What can happen to an element after construction. -/
inductive Stimulus where
  | input (text : String)
  | attributeChanged (name : String) (oldValue newValue : Option String)
  | unitChange
  | click
  deriving DecidableEq, Repr

/-- One stimulus handled: the completion and the element afterwards. -/
def step (validate : Option String → Except JSError Unit) (self : MyMeasurement) :
    Stimulus → Except JSError Unit × MyMeasurement
  | .input text => self.inputEvent text
  | .attributeChanged name oldValue newValue =>
    self.attributeChangedCallback validate name oldValue newValue
  | .unitChange => self.unitChangeEvent
  | .click => self.clickEvent

/-- The element after a sequence of stimuli, oldest first.  A thrown error
ends the handler that threw it, not the element. -/
def run (validate : Option String → Except JSError Unit) (self : MyMeasurement) :
    List Stimulus → MyMeasurement
  | [] => self
  | s :: rest => run validate (step validate self s).2 rest

end MyMeasurement

/-! ## Vocabulary of the specification -/

/-- The text validates: its parse is not NaN and is `>= 0`. -/
def validates (s : String) : Bool :=
  !(isNaN (Number s)) && (Number s).ge JSNumber.zero

/-- The text fails validation: its parse is NaN or negative. -/
def failsValidation (s : String) : Bool :=
  isNaN (Number s) || (Number s).lt JSNumber.zero

/-- The texts of the `input` stimuli of a sequence, oldest first. -/
def inputTexts (stimuli : List MyMeasurement.Stimulus) : List String :=
  stimuli.filterMap (fun s => match s with
    | .input text => some text
    | _ => none)

/-- The text of the most recent `input` stimulus, if there is one. -/
def lastInputText (stimuli : List MyMeasurement.Stimulus) : Option String :=
  (inputTexts stimuli).getLast?

/-- The most recent input text that validated, if there is one. -/
def lastValidatedText (stimuli : List MyMeasurement.Stimulus) : Option String :=
  ((inputTexts stimuli).filter validates).getLast?

/-- Not a recognized MeasurementType: `null`, or a string outside the
enumeration. -/
def unrecognized (value : Option String) : Prop :=
  ∀ v, v ∈ MeasurementType.values → value ≠ some v

/-! ## Lemmas on the host values and the class list -/

theorem ge_zero_eq_not_lt (v : JSNumber) (h : isNaN v = false) :
    v.ge JSNumber.zero = !(v.lt JSNumber.zero) := by
  cases v with
  | nan => simp [isNaN] at h
  | infinity n => rfl
  | finite n m e => rfl

theorem validates_eq_not_fails (s : String) : validates s = !(failsValidation s) := by
  unfold validates failsValidation
  cases h : isNaN (Number s) with
  | true =>
    cases hv : Number s with
    | nan => rfl
    | infinity n => rw [hv] at h; simp [isNaN] at h
    | finite n m e => rw [hv] at h; simp [isNaN] at h
  | false => simp [ge_zero_eq_not_lt _ h]

theorem validateInput_of_fails (s : String) (h : failsValidation s = true) :
    MyMeasurement.validateInput s = .error .Error := by
  unfold failsValidation at h
  simp [MyMeasurement.validateInput, h]

theorem validateInput_of_not_fails (s : String) (h : failsValidation s = false) :
    MyMeasurement.validateInput s = .ok () := by
  unfold failsValidation at h
  simp [MyMeasurement.validateInput, h]

theorem not_mem_remove (tokens : List String) (token : String) :
    token ∉ DOMTokenList.remove tokens token := by
  simp [DOMTokenList.remove]

theorem mem_add (tokens : List String) (token : String) :
    token ∈ DOMTokenList.add tokens token := by
  unfold DOMTokenList.add
  split <;> simp_all

namespace MyMeasurement

/-- An input event whose text passes `#validateInput`: the whole effect. -/
theorem inputEvent_of_not_fails (self : MyMeasurement) (s : String)
    (h : failsValidation s = false) :
    self.inputEvent s = (.ok (),
      { self with
        input := { value := s, classList := DOMTokenList.remove self.input.classList "invalid" }
        quantity := Number s
        dispatched := self.dispatched ++ [{ type := "quantityInput", bubbles := true }] }) := by
  simp [inputEvent, handleInput, validateInput_of_not_fails s h, dispatchEvent]

/-- An input event whose text is rejected by `#validateInput`: the whole effect. -/
theorem inputEvent_of_fails (self : MyMeasurement) (s : String)
    (h : failsValidation s = true) :
    self.inputEvent s = (.ok (),
      { self with
        input := { value := s, classList := DOMTokenList.add self.input.classList "invalid" } }) := by
  simp [inputEvent, handleInput, validateInput_of_fails s h]

theorem inputEvent_invalidMarker (self : MyMeasurement) (s : String) :
    (self.inputEvent s).2.invalidMarker = failsValidation s := by
  cases h : failsValidation s with
  | true => simp [inputEvent_of_fails self s h, invalidMarker, mem_add]
  | false => simp [inputEvent_of_not_fails self s h, invalidMarker, not_mem_remove]

theorem inputEvent_quantity (self : MyMeasurement) (s : String) :
    (self.inputEvent s).2.quantity = if validates s then Number s else self.quantity := by
  rw [validates_eq_not_fails]
  cases h : failsValidation s with
  | true => simp [inputEvent_of_fails self s h]
  | false => simp [inputEvent_of_not_fails self s h]

theorem step_quantity (validate : Option String → Except JSError Unit) (self : MyMeasurement)
    (e : Stimulus) :
    (step validate self e).2.quantity =
      match e with
      | .input text => if validates text then Number text else self.quantity
      | _ => self.quantity := by
  cases e with
  | input text => exact inputEvent_quantity self text
  | attributeChanged name oldValue newValue =>
    simp only [step, attributeChangedCallback]
    split
    · split <;> rfl
    · rfl
  | unitChange => rfl
  | click => rfl

theorem step_invalidMarker (validate : Option String → Except JSError Unit)
    (self : MyMeasurement) (e : Stimulus) :
    (step validate self e).2.invalidMarker =
      match e with
      | .input text => failsValidation text
      | _ => self.invalidMarker := by
  cases e with
  | input text => exact inputEvent_invalidMarker self text
  | attributeChanged name oldValue newValue =>
    simp only [step, attributeChangedCallback]
    split
    · split <;> rfl
    · rfl
  | unitChange => rfl
  | click => rfl

/-- The quantity after a run: the parse of the most recent text that
validated, or the quantity at the start. -/
theorem run_quantity (validate : Option String → Except JSError Unit)
    (stimuli : List Stimulus) (self : MyMeasurement) :
    (run validate self stimuli).quantity =
      match lastValidatedText stimuli with
      | some text => Number text
      | none => self.quantity := by
  induction stimuli generalizing self with
  | nil => rfl
  | cons e rest ih =>
    rw [run, ih, step_quantity]
    cases e with
    | input text =>
      by_cases hv : validates text = true
      · simp only [lastValidatedText, inputTexts, List.filterMap_cons, List.filter_cons, hv,
          if_true, List.getLast?_cons]
        cases (List.filter validates (List.filterMap _ rest)).getLast? <;> rfl
      · simp only [lastValidatedText, inputTexts, List.filterMap_cons, List.filter_cons, hv]
        rfl
    | attributeChanged name oldValue newValue => rfl
    | unitChange => rfl
    | click => rfl

/-- The marker after a run: whether the most recent input text failed
validation, or the marker at the start. -/
theorem run_invalidMarker (validate : Option String → Except JSError Unit)
    (stimuli : List Stimulus) (self : MyMeasurement) :
    (run validate self stimuli).invalidMarker =
      match lastInputText stimuli with
      | some text => failsValidation text
      | none => self.invalidMarker := by
  induction stimuli generalizing self with
  | nil => rfl
  | cons e rest ih =>
    rw [run, ih, step_invalidMarker]
    cases e with
    | input text =>
      simp only [lastInputText, inputTexts, List.filterMap_cons, List.getLast?_cons]
      cases (List.filterMap _ rest).getLast? <;> rfl
    | attributeChanged name oldValue newValue => rfl
    | unitChange => rfl
    | click => rfl

theorem lastValidatedText_validates (stimuli : List Stimulus) (text : String)
    (h : lastValidatedText stimuli = some text) : validates text = true := by
  have hm := List.mem_of_getLast?_eq_some h
  exact (List.mem_filter.mp hm).2

/-! ## Input handling -/

/-- C1: for every field and every text `s` whose parse is not NaN and is `>= 0`,
an input event with text `s` leaves the quantity equal to `Number(s)` and the
invalid marker absent, whatever quantity and marker were before. -/
theorem inputEvent_valid (self : MyMeasurement) (s : String)
    (hnan : isNaN (Number s) = false) (hge : (Number s).ge JSNumber.zero = true) :
    (self.inputEvent s).2.quantity = Number s ∧
      (self.inputEvent s).2.invalidMarker = false ∧
      "invalid" ∉ (self.inputEvent s).2.input.classList := by
  have hv : validates s = true := by simp [validates, hnan, hge]
  have hf : failsValidation s = false := by
    have := validates_eq_not_fails s
    rw [hv] at this
    simpa using this.symm
  refine ⟨?_, ?_, ?_⟩
  · rw [inputEvent_quantity, hv]; rfl
  · rw [inputEvent_invalidMarker, hf]
  · rw [inputEvent_of_not_fails self s hf]
    exact not_mem_remove _ _

/-- C1 at the empty text, on a field that shows the marker and holds another
quantity: the quantity becomes the parse of the empty text, which is `0`. -/
theorem inputEvent_valid_witness :
    (isNaN (Number "") = false ∧ (Number "").ge JSNumber.zero = true) ∧
      (({ construct with
          quantity := Number "7"
          input := { value := "-3", classList := ["invalid"] } } : MyMeasurement).inputEvent
        "").2.quantity = Number "" ∧
      Number "" = JSNumber.zero :=
  ⟨⟨by decide, by decide⟩,
    (inputEvent_valid { construct with
        quantity := Number "7"
        input := { value := "-3", classList := ["invalid"] } } "" (by decide) (by decide)).1,
    by decide⟩

/-- C2: for every field and every text `s` whose parse is NaN or below zero, an
input event with text `s` leaves the quantity as it was, sets the invalid
marker, dispatches nothing, and completes normally (no error reaches the
caller). -/
theorem inputEvent_invalid (self : MyMeasurement) (s : String)
    (h : isNaN (Number s) = true ∨ (Number s).lt JSNumber.zero = true) :
    (self.inputEvent s).2.quantity = self.quantity ∧
      (self.inputEvent s).2.invalidMarker = true ∧
      (self.inputEvent s).2.dispatched = self.dispatched ∧
      (self.inputEvent s).1 = .ok () := by
  have hf : failsValidation s = true := by
    unfold failsValidation
    rcases h with h | h <;> simp [h]
  refine ⟨?_, ?_, ?_, ?_⟩
  · rw [inputEvent_of_fails self s hf]
  · rw [inputEvent_invalidMarker, hf]
  · rw [inputEvent_of_fails self s hf]
  · rw [inputEvent_of_fails self s hf]

/-- C2 at the text "-3" on a new field. -/
theorem inputEvent_invalid_witness :
    (Number "-3").lt JSNumber.zero = true ∧
      (construct.inputEvent "-3").2.quantity = construct.quantity ∧
      (construct.inputEvent "-3").2.invalidMarker = true ∧
      (construct.inputEvent "-3").2.dispatched = construct.dispatched ∧
      (construct.inputEvent "-3").1 = .ok () :=
  ⟨by decide, inputEvent_invalid construct "-3" (Or.inr (by decide))⟩

/-- C3 as stated fails: the text "12.5" validates, and the one event a new
field dispatches on it is named `quantityInput`, not `quantityChanged`. -/
theorem inputEvent_not_quantityChanged :
    validates "12.5" = true ∧
      (construct.inputEvent "12.5").2.dispatched =
        construct.dispatched ++ [{ type := "quantityInput", bubbles := true }] ∧
      (construct.inputEvent "12.5").2.dispatched ≠
        construct.dispatched ++ [{ type := "quantityChanged", bubbles := true }] := by
  decide

/-- C3, amended: for every text `s` that validates, each input event with text
`s` dispatches exactly one bubbling event, named `quantityInput`; a second
event with the same text dispatches it again and leaves the quantity as the
first event left it. -/
theorem inputEvent_dispatches_quantityInput (self : MyMeasurement) (s : String)
    (h : validates s = true) :
    (self.inputEvent s).2.dispatched =
        self.dispatched ++ [{ type := "quantityInput", bubbles := true }] ∧
      ((self.inputEvent s).2.inputEvent s).2.dispatched =
        self.dispatched ++ [{ type := "quantityInput", bubbles := true },
          { type := "quantityInput", bubbles := true }] ∧
      ((self.inputEvent s).2.inputEvent s).2.quantity = (self.inputEvent s).2.quantity := by
  have hf : failsValidation s = false := by
    have := validates_eq_not_fails s
    rw [h] at this
    simpa using this.symm
  refine ⟨?_, ?_, ?_⟩
  · rw [inputEvent_of_not_fails self s hf]
  · rw [inputEvent_of_not_fails _ s hf, inputEvent_of_not_fails self s hf]
    simp
  · rw [inputEvent_of_not_fails _ s hf, inputEvent_of_not_fails self s hf]

/-- C3, amended, at the text "12.5" on a new field. -/
theorem inputEvent_dispatches_quantityInput_witness :
    validates "12.5" = true ∧
      ((construct.inputEvent "12.5").2.inputEvent "12.5").2.dispatched =
        construct.dispatched ++ [{ type := "quantityInput", bubbles := true },
          { type := "quantityInput", bubbles := true }] :=
  ⟨by decide, (inputEvent_dispatches_quantityInput construct "12.5" (by decide)).2.1⟩

/-! ## The `type` attribute -/

/-- C4 as stated fails: when the new value equals the old one the handler does
not validate, so the unrecognized value "speed" raises nothing. -/
theorem attributeChanged_same_unrecognized_no_error :
    unrecognized (some "speed") ∧
      (construct.attributeChangedCallback helper.validateMeasurementType "type"
        (some "speed") (some "speed")).1 = .ok () := by
  refine ⟨?_, by simp [attributeChangedCallback]⟩
  intro v hv
  simp only [MeasurementType.values, List.mem_cons, List.mem_singleton, List.not_mem_nil,
    or_false] at hv
  rcases hv with rfl | rfl | rfl | rfl <;> decide

/-- C4, amended: for every field, every old value and every new value that is
not a recognized MeasurementType and differs from the old value, the handler
for `type` raises `InvalidMeasurementTypeError` and leaves the stored type and
the selector's `type` attribute (the whole element) as they were. -/
theorem attributeChanged_unrecognized (self : MyMeasurement) (oldValue newValue : Option String)
    (hu : unrecognized newValue) (hne : newValue ≠ oldValue) :
    (self.attributeChangedCallback helper.validateMeasurementType "type" oldValue newValue).1 =
        .error .InvalidMeasurementTypeError ∧
      (self.attributeChangedCallback helper.validateMeasurementType "type" oldValue newValue).2.type =
        self.type ∧
      (self.attributeChangedCallback helper.validateMeasurementType "type" oldValue
        newValue).2.unitSelector.typeAttribute = self.unitSelector.typeAttribute ∧
      (self.attributeChangedCallback helper.validateMeasurementType "type" oldValue newValue).2 =
        self := by
  have hv : helper.validateMeasurementType newValue = .error .InvalidMeasurementTypeError := by
    cases newValue with
    | none => rfl
    | some v =>
      have : v ∉ MeasurementType.values := fun hm => hu v hm rfl
      simp [helper.validateMeasurementType, this]
  simp [attributeChangedCallback, hne, hv]

/-- C4, amended, at the new value "speed" replacing "length" on a new field. -/
theorem attributeChanged_unrecognized_witness :
    (construct.attributeChangedCallback helper.validateMeasurementType "type" (some "length")
        (some "speed")).1 = .error .InvalidMeasurementTypeError ∧
      (construct.attributeChangedCallback helper.validateMeasurementType "type" (some "length")
        (some "speed")).2.unitSelector.typeAttribute = some "length" :=
  have h := attributeChanged_unrecognized construct (some "length") (some "speed")
    (by
      intro v hv
      simp only [MeasurementType.values, List.mem_cons, List.mem_singleton, List.not_mem_nil,
        or_false] at hv
      rcases hv with rfl | rfl | rfl | rfl <;> decide)
    (by decide)
  ⟨h.1, h.2.2.1⟩

/-- C5: for every field and every new value that is a recognized
MeasurementType and differs from the old value, the handler for `type`
completes normally, stores the new value as the field's type and sets the
selector's `type` attribute to it. -/
theorem attributeChanged_recognized (self : MyMeasurement) (oldValue : Option String)
    (v : String) (hv : v ∈ MeasurementType.values) (hne : some v ≠ oldValue) :
    (self.attributeChangedCallback helper.validateMeasurementType "type" oldValue (some v)).1 =
        .ok () ∧
      (self.attributeChangedCallback helper.validateMeasurementType "type" oldValue
        (some v)).2.type = some v ∧
      (self.attributeChangedCallback helper.validateMeasurementType "type" oldValue
        (some v)).2.unitSelector.typeAttribute = some v := by
  have hok : helper.validateMeasurementType (some v) = .ok () := by
    simp [helper.validateMeasurementType, hv]
  simp [attributeChangedCallback, hne, hok, attributeString]

/-- C5 at the new value "weight" replacing "length" on a new field. -/
theorem attributeChanged_recognized_witness :
    "weight" ∈ MeasurementType.values ∧
      (construct.attributeChangedCallback helper.validateMeasurementType "type" (some "length")
        (some "weight")).2.type = some "weight" ∧
      (construct.attributeChangedCallback helper.validateMeasurementType "type" (some "length")
        (some "weight")).2.unitSelector.typeAttribute = some "weight" :=
  ⟨by decide,
    (attributeChanged_recognized construct (some "length") "weight" (by decide) (by decide)).2⟩

/-- C10: whenever the attribute name is not `type` or the new value is identical
to the old one, the handler is a no-op: whatever the type check would answer
(it is never consulted, also for an unrecognized new value), the handler
completes normally and the element (stored type, selector attribute, quantity,
marker) is unchanged. -/
theorem attributeChanged_noop (validate : Option String → Except JSError Unit)
    (self : MyMeasurement) (name : String) (oldValue newValue : Option String)
    (h : name ≠ "type" ∨ newValue = oldValue) :
    self.attributeChangedCallback validate name oldValue newValue = (.ok (), self) := by
  unfold attributeChangedCallback
  rcases h with h | h <;> simp [h]

/-- C10 with a type check that rejects everything, at the unrecognized value
"speed" given as both old and new value. -/
theorem attributeChanged_noop_witness :
    construct.attributeChangedCallback (fun _ => .error .InvalidMeasurementTypeError) "type"
      (some "speed") (some "speed") = (.ok (), construct) :=
  attributeChanged_noop (fun _ => .error .InvalidMeasurementTypeError) construct "type"
    (some "speed") (some "speed") (Or.inr rfl)

/-! ## Relayed notifications -/

/-- C6 as stated fails: the event a new field dispatches on a click of the
removal button is named `removeMeasurement`, not `removeRequested`. -/
theorem clickEvent_not_removeRequested :
    construct.clickEvent.2.dispatched =
        construct.dispatched ++ [{ type := "removeMeasurement", bubbles := true }] ∧
      construct.clickEvent.2.dispatched ≠
        construct.dispatched ++ [{ type := "removeRequested", bubbles := true }] := by
  decide

/-- C6, amended: for every field, a click on the removal button dispatches
exactly one bubbling event, named `removeMeasurement`, and changes nothing
else: the field stays attached as it was, and quantity, type and invalid
marker are unchanged. -/
theorem clickEvent_dispatches_removeMeasurement (self : MyMeasurement) :
    self.clickEvent = (.ok (),
        { self with
          dispatched := self.dispatched ++ [{ type := "removeMeasurement", bubbles := true }] }) ∧
      self.clickEvent.2.isConnected = self.isConnected ∧
      self.clickEvent.2.quantity = self.quantity ∧
      self.clickEvent.2.type = self.type ∧
      self.clickEvent.2.invalidMarker = self.invalidMarker :=
  ⟨rfl, rfl, rfl, rfl, rfl⟩

/-- C7 as stated fails: the event a new field dispatches when its selector
reports a unit change is named `unitChange`, not `unitChanged`. -/
theorem unitChangeEvent_not_unitChanged :
    construct.unitChangeEvent.2.dispatched =
        construct.dispatched ++ [{ type := "unitChange", bubbles := true }] ∧
      construct.unitChangeEvent.2.dispatched ≠
        construct.dispatched ++ [{ type := "unitChanged", bubbles := true }] := by
  decide

/-- C7, amended: for every field, when the embedded selector reports a unit
change the field dispatches exactly one bubbling event, named `unitChange`,
and its quantity, type and invalid marker are unchanged. -/
theorem unitChangeEvent_dispatches_unitChange (self : MyMeasurement) :
    self.unitChangeEvent = (.ok (),
        { self with
          dispatched := self.dispatched ++ [{ type := "unitChange", bubbles := true }] }) ∧
      self.unitChangeEvent.2.quantity = self.quantity ∧
      self.unitChangeEvent.2.type = self.type ∧
      self.unitChangeEvent.2.invalidMarker = self.invalidMarker :=
  ⟨rfl, rfl, rfl, rfl⟩

/-! ## The field over time -/

/-- C8: in every state reached from a new field by a finite sequence of input
events, attribute changes (failing or not), unit-change relays and clicks on
the removal button, the stored quantity is not NaN, is `>= 0`, and is the parse
of the most recent input text that validated, or `0` if none has. -/
theorem run_quantity_last_validated (validate : Option String → Except JSError Unit)
    (stimuli : List Stimulus) :
    isNaN (run validate construct stimuli).quantity = false ∧
      (run validate construct stimuli).quantity.ge JSNumber.zero = true ∧
      (run validate construct stimuli).quantity =
        match lastValidatedText stimuli with
        | some text => Number text
        | none => JSNumber.zero := by
  have hq := run_quantity validate stimuli construct
  refine ⟨?_, ?_, hq⟩
  · rw [hq]
    cases hl : lastValidatedText stimuli with
    | none => rfl
    | some text =>
      have hv := lastValidatedText_validates stimuli text hl
      simp only [validates, Bool.and_eq_true, Bool.not_eq_true_eq_eq_false] at hv
      exact hv.1
  · rw [hq]
    cases hl : lastValidatedText stimuli with
    | none => rfl
    | some text =>
      have hv := lastValidatedText_validates stimuli text hl
      simp only [validates, Bool.and_eq_true] at hv
      exact hv.2

/-- C9: a new field has no invalid marker; after any sequence of stimuli the
marker is present exactly when there was an input event and the most recent
one's text failed validation (parse NaN or negative); attribute changes,
unit-change relays and clicks on the removal button leave the marker as it is;
and after an input event the marker is absent exactly when the text validates,
whatever it was before. -/
theorem invalidMarker_tracks_last_input (validate : Option String → Except JSError Unit) :
    construct.invalidMarker = false ∧
      (∀ stimuli : List Stimulus,
        (run validate construct stimuli).invalidMarker =
          match lastInputText stimuli with
          | some text => failsValidation text
          | none => false) ∧
      (∀ (self : MyMeasurement) (name : String) (oldValue newValue : Option String),
        (step validate self (.attributeChanged name oldValue newValue)).2.invalidMarker =
          self.invalidMarker) ∧
      (∀ self : MyMeasurement,
        (step validate self .unitChange).2.invalidMarker = self.invalidMarker) ∧
      (∀ self : MyMeasurement,
        (step validate self .click).2.invalidMarker = self.invalidMarker) ∧
      (∀ (self : MyMeasurement) (text : String),
        (step validate self (.input text)).2.invalidMarker = !(validates text)) := by
  refine ⟨rfl, ?_, ?_, ?_, ?_, ?_⟩
  · intro stimuli
    exact run_invalidMarker validate stimuli construct
  · intro self name oldValue newValue
    exact step_invalidMarker validate self _
  · intro self
    rfl
  · intro self
    rfl
  · intro self text
    rw [validates_eq_not_fails, Bool.not_not]
    exact inputEvent_invalidMarker self text

end MyMeasurement

end UnitConverter
